import Mathlib

/-!
Verification of the xsd-to-openapi schema-translation engine
(src/xsd-to-openapi.ts) against its design specification.

The TypeScript engine is shallowly embedded below.  Conventions used
throughout the embedding:

* The parser adapter (fast-xml-parser, out of scope for the engine) always
  materialises the element names in its always-array list as arrays, so the
  `X | X[]` unions of the source are modelled directly as lists, and the
  paired `xsd:`/`xs:`-prefixed keys of the source (always read with `||`
  fallback) are collapsed into a single field.
* JavaScript objects used as ordered string-keyed maps are modelled as
  association lists with JS assignment semantics (`jsObjSet`): an existing
  key is overwritten in place, a new key is appended.
* The mutable `Set<string>` of resolved type names that the source threads
  through the mutually recursive generation functions is modelled by
  explicit state passing: each function takes the current list of visited
  names and returns the updated one.
* The source's recursion has no structural measure, so the embedding takes
  a fuel argument; `none` means "fuel exhausted".  Fuel is consumed once
  per `generateSchema` nesting level.  The termination theorem for claim C1
  exhibits a concrete sufficient fuel bound, which shows the source's
  recursion is in fact bounded.
* JS truthiness of strings (`""` is falsy) is modelled explicitly at each
  use site (`jsStrOr`, `jsStrOrNull`, explicit `!= ""` tests).
-/

/-- JS `a || b` for strings: an empty string is falsy and falls through. -/
def jsStrOr (s d : String) : String := if s == "" then d else s

/-- JS `a || b` for an optional string against a string default. -/
def jsStrOrD (s? : Option String) (d : String) : String :=
  match s? with
  | some s => if s == "" then d else s
  | none => d

/-- JS `a || null` for an optional string: an empty string becomes null. -/
def jsStrOrNull (s? : Option String) : Option String :=
  match s? with
  | some s => if s == "" then none else some s
  | none => none

/-- JS object property read: first matching key, if any. -/
def jsObjGet {α : Type} : List (String × α) → String → Option α
  | [], _ => none
  | (k', v) :: rest, k => if k' == k then some v else jsObjGet rest k

/-- JS object property write: overwrite in place, or append a new key. -/
def jsObjSet {α : Type} : List (String × α) → String → α → List (String × α)
  | [], k, v => [(k, v)]
  | (k', v') :: rest, k, v =>
    if k' == k then (k', v) :: rest else (k', v') :: jsObjSet rest k v

/-- Kernel-reducible counterparts of the string operations the source
relies on, implemented structurally over the character list so that
concrete runs of the embedding evaluate by `rfl`/`decide` (the core
`String` versions are compiled, not reducible). -/
def strDrop (s : String) (n : Nat) : String := ⟨s.data.drop n⟩

def strDropRight (s : String) (n : Nat) : String := ⟨s.data.take (s.data.length - n)⟩

def strStartsWith (s pat : String) : Bool := pat.data.isPrefixOf s.data

def strEndsWith (s pat : String) : Bool := pat.data.isSuffixOf s.data

def strLen (s : String) : Nat := s.data.length

def strToUpper (s : String) : String := ⟨s.data.map Char.toUpper⟩

def splitOnAuxF (pat : List Char) : Nat → List Char → List Char → List (List Char)
  | 0, l, acc => [acc.reverse ++ l]
  | _ + 1, [], acc => [acc.reverse]
  | fuel + 1, c :: rest, acc =>
    if pat.isPrefixOf (c :: rest) then
      acc.reverse :: splitOnAuxF pat fuel (rest.drop (pat.length - 1)) []
    else splitOnAuxF pat fuel rest (c :: acc)

/-- `String.splitOn` (= JS `split` for our non-empty separators). -/
def strSplitOn (s pat : String) : List String :=
  if pat == "" then [s]
  else (splitOnAuxF pat.data (s.data.length + 1) s.data []).map (fun l => ⟨l⟩)

def strIntercalate (sep : String) : List String → String
  | [] => ""
  | [x] => x
  | x :: rest => x ++ sep ++ strIntercalate sep rest

/-- JS `String.prototype.replace` with a plain-string pattern replaces only
the first occurrence.  Implemented via `splitOn`: the first split boundary
is the first occurrence. -/
def jsReplaceFirst (s pat repl : String) : String :=
  match strSplitOn s pat with
  | [] => s
  | [_] => s
  | a :: rest => a ++ repl ++ strIntercalate pat rest

/-- The `OpenApiType` string union of the source: the nine recognised XSD
primitive type names, which are the admissible values of the `defaultType`
configuration option. -/
inductive OpenApiType where
  | string | decimal | float | double | integer | boolean | date | dateTime | time
deriving DecidableEq, Repr

/-- The literal string carried by an `OpenApiType` union member. -/
def OpenApiType.key : OpenApiType → String
  | .string => "string"
  | .decimal => "decimal"
  | .float => "float"
  | .double => "double"
  | .integer => "integer"
  | .boolean => "boolean"
  | .date => "date"
  | .dateTime => "dateTime"
  | .time => "time"

/-- `openApiTypeMap` of the source: XSD primitive name to OpenAPI type. -/
def openApiTypeMap : List (String × String) :=
  [("string", "string"), ("decimal", "number"), ("float", "number"),
   ("double", "number"), ("integer", "integer"), ("boolean", "boolean"),
   ("date", "string"), ("dateTime", "string"), ("time", "string")]

/-- `XsdElement` of the source: attributes of one parsed `xsd:element`.
`documentation?` stands for the value that the source's annotation lookup
chain (`element["xsd:annotation"]?.[0]?.["xsd:documentation"]?.[0]`)
produces, if any; no audited claim depends on annotation internals. -/
structure XsdElement where
  name : String
  type? : Option String
  maxOccurs? : Option String
  minOccurs? : Option String
  default? : Option String
  fixed? : Option String
  documentation? : Option String
deriving DecidableEq, Repr

/-- `XsdSequence`: the child elements the generator reads from it. -/
structure XsdSequence where
  elements : List XsdElement
deriving DecidableEq, Repr

/-- `XsdChoice`: optional nested sequences, direct elements, `maxOccurs`. -/
structure XsdChoice where
  sequences : List XsdSequence
  elements : List XsdElement
  maxOccurs? : Option String
deriving DecidableEq, Repr

/-- `XsdComplexType`: a named type with sequence and choice children. -/
structure XsdComplexType where
  name : String
  sequences : List XsdSequence
  choices : List XsdChoice
deriving DecidableEq, Repr

/-- `XsdSchema`: the parsed schema root.  `complexTypes?`/`elements?` are
`none` when the corresponding key is absent from the parsed object. -/
structure XsdSchema where
  complexTypes? : Option (List XsdComplexType)
  elements? : Option (List XsdElement)
deriving DecidableEq, Repr

/-- `extractComplexTypes` of the source (the array normalisation collapses
to a default, since the parser adapter always materialises arrays). -/
def extractComplexTypes (xsdSchema : XsdSchema) : List XsdComplexType :=
  xsdSchema.complexTypes?.getD []

/-- `getSequenceElements` of the source. -/
def getSequenceElements (sequence : XsdSequence) : List XsdElement :=
  sequence.elements

/-- `getChoiceElements` of the source: a nested sequence wins, else the
choice's direct elements. -/
def getChoiceElements (choice : XsdChoice) : List XsdElement :=
  match choice.sequences.head? with
  | some nestedSeq => nestedSeq.elements
  | none => choice.elements

/-- The generated JSON-Schema-like node (`Schema`/`SchemaProperty` of the
source, which casts freely between the two): a loosely-typed record whose
absent keys are `none`.  Property insertion order is significant, hence an
association list. -/
inductive GenSchema where
  | mk (type? : Option String)
       (properties? : Option (List (String × GenSchema)))
       (required? : Option (List String))
       (items? : Option GenSchema)
       (oneOf? : Option (List GenSchema))
       (anyOf? : Option (List GenSchema))
       (default? : Option String)
       (fixed? : Option String)
       (description? : Option String)
deriving Repr

def GenSchema.type? : GenSchema → Option String
  | .mk t _ _ _ _ _ _ _ _ => t

def GenSchema.properties? : GenSchema → Option (List (String × GenSchema))
  | .mk _ p _ _ _ _ _ _ _ => p

def GenSchema.required? : GenSchema → Option (List String)
  | .mk _ _ r _ _ _ _ _ _ => r

def GenSchema.items? : GenSchema → Option GenSchema
  | .mk _ _ _ i _ _ _ _ _ => i

def GenSchema.oneOf? : GenSchema → Option (List GenSchema)
  | .mk _ _ _ _ o _ _ _ _ => o

def GenSchema.anyOf? : GenSchema → Option (List GenSchema)
  | .mk _ _ _ _ _ a _ _ _ => a

def GenSchema.setRequired : GenSchema → Option (List String) → GenSchema
  | .mk t p _ i o a d f ds, r => .mk t p r i o a d f ds

def GenSchema.setProperties : GenSchema → Option (List (String × GenSchema)) → GenSchema
  | .mk t _ r i o a d f ds, p => .mk t p r i o a d f ds

def GenSchema.setDescription : GenSchema → Option String → GenSchema
  | .mk t p r i o a d f _, ds => .mk t p r i o a d f ds

def GenSchema.setDefault : GenSchema → Option String → GenSchema
  | .mk t p r i o a _ f ds, d => .mk t p r i o a d f ds

def GenSchema.setFixed : GenSchema → Option String → GenSchema
  | .mk t p r i o a d _ ds, f => .mk t p r i o a d f ds

/-- `{ type: t }`: a bare primitive node. -/
def typeOnly (t : String) : GenSchema :=
  .mk (some t) none none none none none none none none

/-- `{ type: "object", properties: {} }`: the literal the source uses both
to seed a sequence build and to break circular references. -/
def emptyObjectSchema : GenSchema :=
  .mk (some "object") (some []) none none none none none none none

/-- `{ type: "array", items: s }`. -/
def arraySchemaOf (items : GenSchema) : GenSchema :=
  .mk (some "array") none none (some items) none none none none none

/-- `{ [choiceType]: branches }` where `choiceType` is `anyOf` when the
choice's `maxOccurs` is `"unbounded"` and `oneOf` otherwise. -/
def combinatorSchema (unbounded : Bool) (branches : List GenSchema) : GenSchema :=
  if unbounded then .mk none none none none none (some branches) none none none
  else .mk none none none none (some branches) none none none none

/-- The facet-attachment block of `addXsdElementToSchema`: description,
default and fixed are copied onto the generated property when present and
truthy, in source order. -/
def attachFacets (element : XsdElement) (property : GenSchema) : GenSchema :=
  let property :=
    match element.documentation? with
    | some d => if d != "" then property.setDescription (some d) else property
    | none => property
  let property :=
    match element.default? with
    | some d => if d != "" then property.setDefault (some d) else property
    | none => property
  match element.fixed? with
  | some d => if d != "" then property.setFixed (some d) else property
  | none => property

/-- The `(prefix, typeName)` pair produced by `resolveType`. -/
structure ResolvedType where
  pfx? : Option String
  typeName : String
deriving DecidableEq, Repr

/-- `resolveType` of the source.  An absent (or JS-falsy, i.e. empty) raw
type yields the hardcoded local name `"string"`; a `tns:` prefix is the
schema's own namespace and is stripped; any other single-colon prefix
except `xsd`/`xs` is a foreign namespace prefix; everything else is a local
name.  `typeParts[1] || defaultType` falls back on an empty local part. -/
def resolveType (defaultType : OpenApiType) (rawType? : Option String) : ResolvedType :=
  match rawType? with
  | none => ⟨none, "string"⟩
  | some rawType =>
    if rawType == "" then ⟨none, "string"⟩
    else if strStartsWith rawType "tns:" then ⟨none, strDrop rawType 4⟩
    else
      let typeParts := strSplitOn rawType ":"
      if typeParts.length == 2 && typeParts.head?.getD "" != "xsd"
          && typeParts.head?.getD "" != "xs" then
        ⟨some (typeParts.head?.getD ""),
         jsStrOr ((typeParts.drop 1).head?.getD "") defaultType.key⟩
      else ⟨none, rawType⟩

/-- The type of the recursive entry point threaded through the helpers:
(schema, typeName, visited names) to optional (schema node, visited names).
The mutual recursion of the source is tied in `generateSchemaF`. -/
def GenFun : Type :=
  XsdSchema → String → List String → Option (GenSchema × List String)

/-- `resolveReferencedSchema` of the source, parameterised by the recursive
entry point: a type name already in the visited set breaks the cycle with
an empty object schema; otherwise the name is added and generation
recurses. -/
def resolveReferencedSchemaGo (gen : GenFun) (xsdSchema : XsdSchema)
    (typeName : String) (resolvedTypes : List String) :
    Option (GenSchema × List String) :=
  if typeName ∈ resolvedTypes then
    some (emptyObjectSchema, resolvedTypes)
  else
    gen xsdSchema typeName (typeName :: resolvedTypes)

/-- The local arm of the property-schema computation of
`addXsdElementToSchema`: the `else if (!prefix && elementType)` branch
(strip a leading `xsd:`/`xs:`, map a known primitive, otherwise recurse
into the same schema) and, for a JS-falsy element type, the final `else`
(default-type) arm. -/
def resolveUnprefixedGo (gen : GenFun) (typeName : String) (xsdSchema : XsdSchema)
    (defaultType : OpenApiType) (resolvedTypes : List String) :
    Option (GenSchema × List String) :=
  if typeName != "" then
    match jsObjGet openApiTypeMap (jsReplaceFirst (jsReplaceFirst typeName "xsd:" "") "xs:" "") with
    | some mappedElement => some (typeOnly mappedElement, resolvedTypes)
    | none => resolveReferencedSchemaGo gen xsdSchema typeName resolvedTypes
  else some (typeOnly defaultType.key, resolvedTypes)

/-- The property-schema computation of `addXsdElementToSchema` (the
`if (prefix && importedSchemas?.[prefix]) ... else if (!prefix &&
elementType) ... else ...` chain).  A truthy prefix found in the
imported-schema map resolves in the imported schema; a truthy prefix
missing from the map fails both guards and falls to the default-type arm;
a falsy prefix (absent, or the empty string) resolves locally. -/
def resolvePropertySchemaGo (gen : GenFun) (rt : ResolvedType)
    (xsdSchema : XsdSchema) (defaultType : OpenApiType)
    (importedSchemas : List (String × XsdSchema))
    (resolvedTypes : List String) : Option (GenSchema × List String) :=
  match rt.pfx? with
  | some p =>
    if p != "" then
      match jsObjGet importedSchemas p with
      | some imported => resolveReferencedSchemaGo gen imported rt.typeName resolvedTypes
      | none => some (typeOnly defaultType.key, resolvedTypes)
    else resolveUnprefixedGo gen rt.typeName xsdSchema defaultType resolvedTypes
  | none => resolveUnprefixedGo gen rt.typeName xsdSchema defaultType resolvedTypes

/-- The `required` update of `addXsdElementToSchema`: when the element's
effective minOccurs is 1 (`@_minOccurs` absent or JS-falsy, or literal
`"1"`), the enclosing object's `required` list is initialised, and the
property name is pushed unless the generated property is an array node. -/
def updateRequired (openApiSchema property : GenSchema) (subElementName : String)
    (minOccurs? : Option String) : GenSchema :=
  let min := jsStrOrNull minOccurs?
  if min == none || min == some "1" then
    let acc := openApiSchema.setRequired (some (openApiSchema.required?.getD []))
    if property.type? != some "array" then
      acc.setRequired (some (acc.required?.getD [] ++ [subElementName]))
    else acc
  else openApiSchema

/-- `addXsdElementToSchema` of the source, parameterised by the recursive
entry point: resolve the element's property schema, wrap it as an array
node when `maxOccurs` is `"unbounded"`, update the enclosing object's
`required` list, attach facets, and store the property under the element's
name. -/
def addXsdElementToSchemaGo (gen : GenFun) (element : XsdElement)
    (openApiSchema : GenSchema) (xsdSchema : XsdSchema)
    (defaultType : OpenApiType) (importedSchemas : List (String × XsdSchema))
    (resolvedTypes : List String) : Option (GenSchema × List String) :=
  match resolvePropertySchemaGo gen (resolveType defaultType element.type?) xsdSchema
      defaultType importedSchemas resolvedTypes with
  | none => none
  | some (propertySchema, resolved1) =>
    let property : GenSchema :=
      if element.maxOccurs? == some "unbounded" then arraySchemaOf propertySchema
      else propertySchema
    let acc := updateRequired openApiSchema property element.name element.minOccurs?
    let property := attachFacets element property
    some (acc.setProperties (some (jsObjSet (acc.properties?.getD []) element.name property)),
          resolved1)

/-- The `sequenceElements.reduce(...)` of `generateSchema`: fold the
elements into the accumulated object schema, threading the visited set. -/
def addElementsGo (gen : GenFun) (xsdSchema : XsdSchema)
    (defaultType : OpenApiType) (importedSchemas : List (String × XsdSchema)) :
    List XsdElement → GenSchema → List String → Option (GenSchema × List String)
  | [], acc, resolvedTypes => some (acc, resolvedTypes)
  | element :: rest, acc, resolvedTypes =>
    match addXsdElementToSchemaGo gen element acc xsdSchema defaultType
        importedSchemas resolvedTypes with
    | none => none
    | some (acc', resolved') =>
      addElementsGo gen xsdSchema defaultType importedSchemas rest acc' resolved'

/-- The `choiceElements.map(...)` of `generateSchema`: each choice element
is built into its own fresh single-property object schema, threading the
visited set left to right. -/
def buildChoiceSchemasGo (gen : GenFun) (xsdSchema : XsdSchema)
    (defaultType : OpenApiType) (importedSchemas : List (String × XsdSchema)) :
    List XsdElement → List String → Option (List GenSchema × List String)
  | [], resolvedTypes => some ([], resolvedTypes)
  | element :: rest, resolvedTypes =>
    match addXsdElementToSchemaGo gen element emptyObjectSchema xsdSchema
        defaultType importedSchemas resolvedTypes with
    | none => none
    | some (branch, resolved1) =>
      match buildChoiceSchemasGo gen xsdSchema defaultType importedSchemas rest resolved1 with
      | none => none
      | some (branches, resolved2) => some (branch :: branches, resolved2)

/-- The sequence-element list of a complex type as `generateSchema` reads
it: the first sequence child's elements, or nothing. -/
def complexTypeSequenceElements (complexType : XsdComplexType) : List XsdElement :=
  match complexType.sequences.head? with
  | some sequence => getSequenceElements sequence
  | none => []

/-- The choice-element list of a complex type as `generateSchema` reads it:
the first choice child's elements (via `getChoiceElements`), or nothing. -/
def complexTypeChoiceElements (complexType : XsdComplexType) : List XsdElement :=
  match complexType.choices.head? with
  | some choice => getChoiceElements choice
  | none => []

/-- `generateSchema` of the source, fuel-indexed.  One unit of fuel is
consumed per nesting level; the body at positive fuel is the source's body
with the recursive entry point instantiated at one level less fuel. -/
def generateSchemaF : Nat → OpenApiType → List (String × XsdSchema) → GenFun
  | 0, _, _ => fun _ _ _ => none
  | fuel + 1, defaultType, importedSchemas => fun xsdSchema typeName resolvedTypes =>
    let gen := generateSchemaF fuel defaultType importedSchemas
    let complexTypes := extractComplexTypes xsdSchema
    match complexTypes.find? (fun ct => ct.name == typeName) with
    | none => some (typeOnly defaultType.key, resolvedTypes)
    | some complexType =>
      let sequenceElements := complexTypeSequenceElements complexType
      let choiceElements := complexTypeChoiceElements complexType
      if sequenceElements.isEmpty && choiceElements.isEmpty then
        some (typeOnly defaultType.key, resolvedTypes)
      else
        match addElementsGo gen xsdSchema defaultType importedSchemas
            sequenceElements emptyObjectSchema resolvedTypes with
        | none => none
        | some (sequenceSchema, resolved1) =>
          if choiceElements.isEmpty then
            some (sequenceSchema, resolved1)
          else
            let choiceUnbounded : Bool :=
              ((complexType.choices.head?).bind (fun c => c.maxOccurs?)) == some "unbounded"
            match buildChoiceSchemasGo gen xsdSchema defaultType importedSchemas
                choiceElements resolved1 with
            | none => none
            | some (choiceSchemas, resolved2) =>
              some (combinatorSchema choiceUnbounded choiceSchemas, resolved2)

/-- `generateSchema` with the source's parameter-object signature. -/
def generateSchema (fuel : Nat) (xsdSchema : XsdSchema) (typeName : String)
    (resolvedTypes : List String) (defaultType : OpenApiType)
    (importedSchemas : List (String × XsdSchema)) : Option (GenSchema × List String) :=
  generateSchemaF fuel defaultType importedSchemas xsdSchema typeName resolvedTypes

/-- `resolveReferencedSchema` with the source's signature. -/
def resolveReferencedSchema (fuel : Nat) (xsdSchema : XsdSchema) (typeName : String)
    (resolvedTypes : List String) (defaultType : OpenApiType)
    (importedSchemas : List (String × XsdSchema)) : Option (GenSchema × List String) :=
  resolveReferencedSchemaGo (generateSchemaF fuel defaultType importedSchemas)
    xsdSchema typeName resolvedTypes

/-- The property-schema computation of `addXsdElementToSchema`, tied to the
fuel-indexed entry point. -/
def resolvePropertySchema (fuel : Nat) (rt : ResolvedType) (xsdSchema : XsdSchema)
    (defaultType : OpenApiType) (importedSchemas : List (String × XsdSchema))
    (resolvedTypes : List String) : Option (GenSchema × List String) :=
  resolvePropertySchemaGo (generateSchemaF fuel defaultType importedSchemas)
    rt xsdSchema defaultType importedSchemas resolvedTypes

/-- `addXsdElementToSchema` with the source's signature. -/
def addXsdElementToSchema (fuel : Nat) (element : XsdElement)
    (openApiSchema : GenSchema) (xsdSchema : XsdSchema)
    (defaultType : OpenApiType) (importedSchemas : List (String × XsdSchema))
    (resolvedTypes : List String) : Option (GenSchema × List String) :=
  addXsdElementToSchemaGo (generateSchemaF fuel defaultType importedSchemas)
    element openApiSchema xsdSchema defaultType importedSchemas resolvedTypes

/-- `ErrorSchemaOptions` of the source, with the error schema already
parsed (file reading and XML parsing are out-of-scope collaborators):
`errorXsdSchema?` is the schema root found in the configured error schema
content/file, if any. -/
structure ErrorSchemaOptions where
  errorXsdSchema? : Option XsdSchema
  errorStatusCode : String
  errorDescription? : Option String
  errorTypeName? : Option String

/-- `SpecGeneratorOptions` of the source: every field optional, defaults
applied by destructuring inside `generateOpenApiSpec`. -/
structure SpecGeneratorOptions where
  requestSuffix? : Option String
  responseSuffix? : Option String
  useSchemaNameInPath? : Option Bool
  httpMethod? : Option String
  openApiSpecDescription? : Option String
  contentType? : Option String
  defaultType? : Option OpenApiType
  error? : Option ErrorSchemaOptions

/-- `requestBody` of an operation. -/
structure RequestBody where
  required : Bool
  description? : Option String
  content : List (String × GenSchema)
deriving Repr

/-- One entry of an operation's `responses` record. -/
structure ResponseEntry where
  description? : Option String
  content? : Option (List (String × GenSchema))
deriving Repr

/-- `Operation` as the source builds it (`operationId`, `summary`, then
optionally `requestBody` and the `responses` entries). -/
structure Operation where
  operationId : String
  summary : String
  requestBody? : Option RequestBody
  responses : List (String × ResponseEntry)
deriving Repr

/-- A path item: the single configured HTTP method mapped to its
operation. -/
def PathItem : Type := List (String × Operation)

/-- The `info` block of the produced document. -/
structure OpenApiInfo where
  title : String
  description : String
  version : String
deriving DecidableEq, Repr

/-- The produced OpenAPI document. -/
structure OpenApiSpec where
  openapi : String
  info : OpenApiInfo
  paths : List (String × PathItem)

/-- The request/response pair collected for one path name. -/
structure GroupEntry where
  request? : Option XsdElement
  response? : Option XsdElement
deriving DecidableEq, Repr

/-- The `validElements.reduce(...)` grouping of `generateOpenApiSpec`:
strip a truthy request/response suffix from each top-level element name,
register the element under the stripped path name in its role; an element
matching neither suffix is skipped.  When a name matches both suffixes, the
response-derived path name wins unless a request suffix already matched and
produced a different stem. -/
def groupElements (requestSuffix responseSuffix : String)
    (elements : List XsdElement) : List (String × GroupEntry) :=
  elements.foldl
    (fun acc element =>
      let elementName := element.name
      let step1 : String × Bool :=
        if requestSuffix != "" && strEndsWith elementName requestSuffix then
          (strDropRight elementName (strLen requestSuffix), true)
        else (elementName, false)
      let step2 : String × Bool :=
        if responseSuffix != "" && strEndsWith elementName responseSuffix then
          let potentialPathName := strDropRight elementName (strLen responseSuffix)
          (if !step1.2 || potentialPathName == step1.1 then potentialPathName else step1.1,
           true)
        else (step1.1, false)
      let isRequest := step1.2
      let isResponse := step2.2
      let pathName := step2.1
      if isRequest || isResponse then
        let entry := (jsObjGet acc pathName).getD ⟨none, none⟩
        let entry := if isRequest then GroupEntry.mk (some element) entry.response? else entry
        let entry := if isResponse then GroupEntry.mk entry.request? (some element) else entry
        jsObjSet acc pathName entry
      else acc)
    []

/-- The `requestBody` construction of `generateOpenApiSpec`: present only
when a request element exists; `required` is its `minOccurs !== "0"`; the
schema is generated from the element's resolved type name with a fresh
visited set. -/
def buildRequestBody (fuel : Nat) (xsdSchema : XsdSchema)
    (importedSchemas : List (String × XsdSchema)) (defaultType : OpenApiType)
    (contentType : String) : Option XsdElement → Option (Option RequestBody)
  | none => some none
  | some request =>
    match generateSchema fuel xsdSchema (resolveType defaultType request.type?).typeName
        [] defaultType importedSchemas with
    | none => none
    | some (schema, _) =>
      some (some ⟨request.minOccurs? != some "0", request.documentation?,
                  [(contentType, schema)]⟩)

/-- The `responses["200"]` construction of `generateOpenApiSpec`: present
only when a response element exists. -/
def buildResponse200 (fuel : Nat) (xsdSchema : XsdSchema)
    (importedSchemas : List (String × XsdSchema)) (defaultType : OpenApiType)
    (contentType : String) : Option XsdElement → Option (List (String × ResponseEntry))
  | none => some []
  | some response =>
    match generateSchema fuel xsdSchema (resolveType defaultType response.type?).typeName
        [] defaultType importedSchemas with
    | none => none
    | some (schema, _) =>
      some [("200", ⟨response.documentation?, some [(contentType, schema)]⟩)]

/-- The error-response block of `generateOpenApiSpec`: when error options
carry a parsed error schema, generate the error response from the
configured type name (kept even if empty, via `??`) or the first complex
type's name; an undefined type name matches no complex type and therefore
yields the default-type node.  The error schema is generated without
imported schemas. -/
def buildErrorResponses (fuel : Nat) (defaultType : OpenApiType) (contentType : String)
    (responses : List (String × ResponseEntry)) :
    Option ErrorSchemaOptions → Option (List (String × ResponseEntry))
  | none => some responses
  | some errorOpts =>
    match errorOpts.errorXsdSchema? with
    | none => some responses
    | some errorXsdSchema =>
      let complexTypes := extractComplexTypes errorXsdSchema
      let typeName? :=
        match errorOpts.errorTypeName? with
        | some t => some t
        | none => (complexTypes.head?).map (fun ct => ct.name)
      let entryOf : GenSchema → ResponseEntry := fun schema =>
        ⟨some (jsStrOrD errorOpts.errorDescription? "Error response"),
         some [(contentType, schema)]⟩
      match typeName? with
      | some typeName =>
        match generateSchema fuel errorXsdSchema typeName [] defaultType [] with
        | none => none
        | some (schema, _) =>
          some (jsObjSet responses errorOpts.errorStatusCode (entryOf schema))
      | none =>
        some (jsObjSet responses errorOpts.errorStatusCode (entryOf (typeOnly defaultType.key)))

/-- The `for (const [pathName, {request, response}] of ...)` loop of
`generateOpenApiSpec`, threading the accumulated `paths` record. -/
def buildPaths (fuel : Nat) (xsdSchema : XsdSchema)
    (importedSchemas : List (String × XsdSchema)) (defaultType : OpenApiType)
    (contentType httpMethod schemaName : String) (useSchemaNameInPath : Bool)
    (errorOpts? : Option ErrorSchemaOptions) :
    List (String × GroupEntry) → List (String × PathItem) → Option (List (String × PathItem))
  | [], paths => some paths
  | (pathName, entry) :: rest, paths =>
    if entry.request?.isNone && entry.response?.isNone then
      buildPaths fuel xsdSchema importedSchemas defaultType contentType httpMethod
        schemaName useSchemaNameInPath errorOpts? rest paths
    else
      let openApiPathName :=
        if useSchemaNameInPath then "/" ++ schemaName ++ "/" ++ pathName
        else "/" ++ pathName
      match buildRequestBody fuel xsdSchema importedSchemas defaultType contentType
          entry.request? with
      | none => none
      | some requestBody? =>
        match buildResponse200 fuel xsdSchema importedSchemas defaultType contentType
            entry.response? with
        | none => none
        | some responses200 =>
          match buildErrorResponses fuel defaultType contentType responses200 errorOpts? with
          | none => none
          | some responses =>
            let operation : Operation :=
              ⟨pathName, strToUpper httpMethod ++ " " ++ openApiPathName, requestBody?, responses⟩
            buildPaths fuel xsdSchema importedSchemas defaultType contentType httpMethod
              schemaName useSchemaNameInPath errorOpts? rest
              (jsObjSet paths openApiPathName [(httpMethod, operation)])

/-- `generateOpenApiSpec` of the source.  `importedSchemas` is the
prefix-to-schema map the import resolver produced (file I/O is an
out-of-scope collaborator); `schemaName` arrives already lowercased by the
entry point. -/
def generateOpenApiSpec (fuel : Nat) (xsdSchema : XsdSchema) (schemaName : String)
    (importedSchemas : List (String × XsdSchema)) (options : SpecGeneratorOptions) :
    Option OpenApiSpec :=
  let requestSuffix := options.requestSuffix?.getD "Req"
  let responseSuffix := options.responseSuffix?.getD "Res"
  let httpMethod := options.httpMethod?.getD "post"
  let contentType := options.contentType?.getD "application/json"
  let defaultType := options.defaultType?.getD OpenApiType.string
  let useSchemaNameInPath := options.useSchemaNameInPath?.getD false
  let specDescription :=
    jsStrOrD options.openApiSpecDescription?
      ("OpenAPI 3.1.0 specification generated from XSD schema " ++ schemaName)
  let validElements := xsdSchema.elements?.getD []
  let groupedElements := groupElements requestSuffix responseSuffix validElements
  match buildPaths fuel xsdSchema importedSchemas defaultType contentType httpMethod
      schemaName useSchemaNameInPath options.error? groupedElements [] with
  | none => none
  | some paths => some ⟨"3.1.0", ⟨schemaName, specDescription, "1.0.0"⟩, paths⟩

/-! ### Basic lemmas about the JS-object and schema-node helpers -/

theorem jsObjGet_set_self {α : Type} (l : List (String × α)) (k : String) (v : α) :
    jsObjGet (jsObjSet l k v) k = some v := by
  induction l with
  | nil => simp [jsObjGet, jsObjSet]
  | cons hd tl ih =>
    obtain ⟨k', v'⟩ := hd
    by_cases hk : k' == k
    · simp [jsObjGet, jsObjSet, hk]
    · simp only [jsObjSet, hk, Bool.false_eq_true, if_false, jsObjGet]
      simpa [hk] using ih

theorem jsObjGet_mem {α : Type} {l : List (String × α)} {k : String} {v : α}
    (h : jsObjGet l k = some v) : (k, v) ∈ l := by
  induction l with
  | nil => simp [jsObjGet] at h
  | cons hd tl ih =>
    obtain ⟨k', v'⟩ := hd
    by_cases hk : k' == k
    · simp only [jsObjGet, hk, if_true] at h
      cases h
      have : k' = k := by simpa using hk
      subst this
      exact List.mem_cons_self _ _
    · simp only [jsObjGet, hk, Bool.false_eq_true, if_false] at h
      exact List.mem_cons_of_mem _ (ih h)

theorem openApiTypeMap_value_ne_array {s m : String}
    (h : jsObjGet openApiTypeMap s = some m) : m ≠ "array" := by
  have hall : ∀ kv ∈ openApiTypeMap, kv.2 ≠ "array" := by decide
  exact hall _ (jsObjGet_mem h)

theorem OpenApiType.key_ne_array (dt : OpenApiType) : dt.key ≠ "array" := by
  cases dt <;> decide

theorem typeOnly_type (t : String) : (typeOnly t).type? = some t := rfl

theorem emptyObjectSchema_type : emptyObjectSchema.type? = some "object" := rfl

theorem combinatorSchema_type (u : Bool) (bs : List GenSchema) :
    (combinatorSchema u bs).type? = none := by
  cases u <;> rfl

theorem type_setRequired (s : GenSchema) (r : Option (List String)) :
    (s.setRequired r).type? = s.type? := by cases s; rfl

theorem type_setProperties (s : GenSchema) (p : Option (List (String × GenSchema))) :
    (s.setProperties p).type? = s.type? := by cases s; rfl

theorem required_setRequired (s : GenSchema) (r : Option (List String)) :
    (s.setRequired r).required? = r := by cases s; rfl

theorem required_setProperties (s : GenSchema) (p : Option (List (String × GenSchema))) :
    (s.setProperties p).required? = s.required? := by cases s; rfl

theorem properties_setProperties (s : GenSchema) (p : Option (List (String × GenSchema))) :
    (s.setProperties p).properties? = p := by cases s; rfl

theorem properties_setRequired (s : GenSchema) (r : Option (List String)) :
    (s.setRequired r).properties? = s.properties? := by cases s; rfl

theorem type_setDescription (s : GenSchema) (d : Option String) :
    (s.setDescription d).type? = s.type? := by cases s; rfl

theorem type_setDefault (s : GenSchema) (d : Option String) :
    (s.setDefault d).type? = s.type? := by cases s; rfl

theorem type_setFixed (s : GenSchema) (d : Option String) :
    (s.setFixed d).type? = s.type? := by cases s; rfl

theorem type_attachFacets (e : XsdElement) (s : GenSchema) :
    (attachFacets e s).type? = s.type? := by
  unfold attachFacets
  cases e.documentation? <;> cases e.default? <;> cases e.fixed? <;>
    (repeat' split) <;>
    simp only [type_setDescription, type_setDefault, type_setFixed]

theorem arraySchemaOf_type (s : GenSchema) : (arraySchemaOf s).type? = some "array" := rfl

/-! ### Monotonicity: the visited-name set only ever grows -/

/-- A recursive entry point whose returned visited set extends its input. -/
def GenMono (gen : GenFun) : Prop :=
  ∀ sch tn res out r', gen sch tn res = some (out, r') → res ⊆ r'

theorem resolveRefGo_mono {gen : GenFun} (hg : GenMono gen) {sch tn res out r'}
    (h : resolveReferencedSchemaGo gen sch tn res = some (out, r')) : res ⊆ r' := by
  unfold resolveReferencedSchemaGo at h
  split at h
  · cases h
    exact List.Subset.refl _
  · exact (List.subset_cons_self tn res).trans (hg _ _ _ _ _ h)

theorem resolveUnprefixedGo_mono {gen : GenFun} (hg : GenMono gen) {tn sch dt res out r'}
    (h : resolveUnprefixedGo gen tn sch dt res = some (out, r')) : res ⊆ r' := by
  unfold resolveUnprefixedGo at h
  split at h
  · split at h
    · cases h
      exact List.Subset.refl _
    · exact resolveRefGo_mono hg h
  · cases h
    exact List.Subset.refl _

theorem resolvePropGo_mono {gen : GenFun} (hg : GenMono gen) {rt sch dt imp res out r'}
    (h : resolvePropertySchemaGo gen rt sch dt imp res = some (out, r')) : res ⊆ r' := by
  unfold resolvePropertySchemaGo at h
  split at h
  · split at h
    · split at h
      · exact resolveRefGo_mono hg h
      · cases h
        exact List.Subset.refl _
    · exact resolveUnprefixedGo_mono hg h
  · exact resolveUnprefixedGo_mono hg h

theorem addXsdGo_mono {gen : GenFun} (hg : GenMono gen) {e acc sch dt imp res out r'}
    (h : addXsdElementToSchemaGo gen e acc sch dt imp res = some (out, r')) : res ⊆ r' := by
  unfold addXsdElementToSchemaGo at h
  split at h
  · exact absurd h (by simp)
  · rename_i propertySchema resolved1 heq
    have hr' : r' = resolved1 := by
      simp only [Option.some.injEq, Prod.mk.injEq] at h
      exact h.2.symm
    subst hr'
    exact resolvePropGo_mono hg heq

theorem addElementsGo_mono {gen : GenFun} (hg : GenMono gen) :
    ∀ {elems : List XsdElement} {sch dt imp acc res out r'},
      addElementsGo gen sch dt imp elems acc res = some (out, r') → res ⊆ r' := by
  intro elems
  induction elems with
  | nil =>
    intro sch dt imp acc res out r' h
    unfold addElementsGo at h
    cases h
    exact List.Subset.refl _
  | cons e rest ih =>
    intro sch dt imp acc res out r' h
    unfold addElementsGo at h
    split at h
    · exact absurd h (by simp)
    · rename_i acc' resolved' heq
      exact (addXsdGo_mono hg heq).trans (ih h)

theorem buildChoiceGo_mono {gen : GenFun} (hg : GenMono gen) :
    ∀ {elems : List XsdElement} {sch dt imp res bs r'},
      buildChoiceSchemasGo gen sch dt imp elems res = some (bs, r') → res ⊆ r' := by
  intro elems
  induction elems with
  | nil =>
    intro sch dt imp res bs r' h
    unfold buildChoiceSchemasGo at h
    cases h
    exact List.Subset.refl _
  | cons e rest ih =>
    intro sch dt imp res bs r' h
    unfold buildChoiceSchemasGo at h
    split at h
    · exact absurd h (by simp)
    · rename_i branch resolved1 heq
      split at h
      · exact absurd h (by simp)
      · rename_i branches resolved2 heq2
        have hr' : r' = resolved2 := by
          simp only [Option.some.injEq, Prod.mk.injEq] at h
          exact h.2.symm
        subst hr'
        exact (addXsdGo_mono hg heq).trans (ih heq2)

theorem generateSchemaF_mono (fuel : Nat) (dt : OpenApiType)
    (imp : List (String × XsdSchema)) : GenMono (generateSchemaF fuel dt imp) := by
  induction fuel with
  | zero =>
    intro sch tn res out r' h
    simp [generateSchemaF] at h
  | succ fuel ih =>
    intro sch tn res out r' h
    simp only [generateSchemaF] at h
    split at h
    · cases h
      exact List.Subset.refl _
    · split at h
      · cases h
        exact List.Subset.refl _
      · split at h
        · exact absurd h (by simp)
        · rename_i sequenceSchema resolved1 heq
          split at h
          · cases h
            exact addElementsGo_mono ih heq
          · split at h
            · exact absurd h (by simp)
            · rename_i choiceSchemas resolved2 heq2
              cases h
              exact (addElementsGo_mono ih heq).trans (buildChoiceGo_mono ih heq2)

/-! ### Shape: a generated node's top-level `type` is never `"array"`
(the array wrapper is applied only around a resolved property schema) -/

theorem updateRequired_type (acc property : GenSchema) (n : String) (m : Option String) :
    (updateRequired acc property n m).type? = acc.type? := by
  simp only [updateRequired]
  cases acc
  repeat' split
  all_goals rfl

theorem updateRequired_properties (acc property : GenSchema) (n : String) (m : Option String) :
    (updateRequired acc property n m).properties? = acc.properties? := by
  simp only [updateRequired]
  cases acc
  repeat' split
  all_goals rfl

theorem addXsdGo_acc_type {gen : GenFun} {e acc sch dt imp res out r'}
    (h : addXsdElementToSchemaGo gen e acc sch dt imp res = some (out, r')) :
    out.type? = acc.type? := by
  unfold addXsdElementToSchemaGo at h
  split at h
  · exact absurd h (by simp)
  · rename_i propertySchema resolved1 heq
    simp only [Option.some.injEq, Prod.mk.injEq] at h
    rw [← h.1, type_setProperties, updateRequired_type]

theorem addElementsGo_acc_type {gen : GenFun} :
    ∀ {elems : List XsdElement} {sch dt imp acc res out r'},
      addElementsGo gen sch dt imp elems acc res = some (out, r') → out.type? = acc.type? := by
  intro elems
  induction elems with
  | nil =>
    intro sch dt imp acc res out r' h
    unfold addElementsGo at h
    cases h
    rfl
  | cons e rest ih =>
    intro sch dt imp acc res out r' h
    unfold addElementsGo at h
    split at h
    · exact absurd h (by simp)
    · rename_i acc' resolved' heq
      exact (ih h).trans (addXsdGo_acc_type heq)

theorem generateSchemaF_shape {fuel : Nat} {dt : OpenApiType}
    {imp : List (String × XsdSchema)} {sch tn res out r'}
    (h : generateSchemaF fuel dt imp sch tn res = some (out, r')) :
    out.type? = some dt.key ∨ out.type? = some "object" ∨ out.type? = none := by
  cases fuel with
  | zero => simp [generateSchemaF] at h
  | succ fuel =>
    simp only [generateSchemaF] at h
    split at h
    · cases h
      exact Or.inl (typeOnly_type _)
    · split at h
      · cases h
        exact Or.inl (typeOnly_type _)
      · split at h
        · exact absurd h (by simp)
        · rename_i sequenceSchema resolved1 heq
          split at h
          · cases h
            exact Or.inr (Or.inl ((addElementsGo_acc_type heq).trans emptyObjectSchema_type))
          · split at h
            · exact absurd h (by simp)
            · rename_i choiceSchemas resolved2 heq2
              cases h
              exact Or.inr (Or.inr (combinatorSchema_type _ _))

theorem resolveRefGo_not_array {gen : GenFun} {dt : OpenApiType}
    (hshape : ∀ sch tn res out r', gen sch tn res = some (out, r') →
      out.type? = some dt.key ∨ out.type? = some "object" ∨ out.type? = none)
    {sch tn res out r'}
    (h : resolveReferencedSchemaGo gen sch tn res = some (out, r')) :
    out.type? ≠ some "array" := by
  unfold resolveReferencedSchemaGo at h
  split at h
  · cases h
    rw [emptyObjectSchema_type]
    decide
  · rcases hshape _ _ _ _ _ h with ht | ht | ht <;> rw [ht]
    · exact fun heq => dt.key_ne_array (Option.some.inj heq)
    · decide
    · decide

theorem resolveUnprefixedGo_not_array {gen : GenFun} {dt : OpenApiType}
    (hshape : ∀ sch tn res out r', gen sch tn res = some (out, r') →
      out.type? = some dt.key ∨ out.type? = some "object" ∨ out.type? = none)
    {tn sch res out r'}
    (h : resolveUnprefixedGo gen tn sch dt res = some (out, r')) :
    out.type? ≠ some "array" := by
  unfold resolveUnprefixedGo at h
  split at h
  · split at h
    · rename_i mapped hmap
      cases h
      rw [typeOnly_type]
      exact fun heq => openApiTypeMap_value_ne_array hmap (Option.some.inj heq)
    · exact resolveRefGo_not_array hshape h
  · cases h
    rw [typeOnly_type]
    exact fun heq => dt.key_ne_array (Option.some.inj heq)

theorem resolvePropGo_not_array {gen : GenFun} {dt : OpenApiType}
    (hshape : ∀ sch tn res out r', gen sch tn res = some (out, r') →
      out.type? = some dt.key ∨ out.type? = some "object" ∨ out.type? = none)
    {rt sch imp res out r'}
    (h : resolvePropertySchemaGo gen rt sch dt imp res = some (out, r')) :
    out.type? ≠ some "array" := by
  unfold resolvePropertySchemaGo at h
  split at h
  · split at h
    · split at h
      · exact resolveRefGo_not_array hshape h
      · cases h
        rw [typeOnly_type]
        exact fun heq => dt.key_ne_array (Option.some.inj heq)
    · exact resolveUnprefixedGo_not_array hshape h
  · exact resolveUnprefixedGo_not_array hshape h

theorem resolvePropertySchema_not_array {fuel : Nat} {dt : OpenApiType}
    {rt sch imp res out r'}
    (h : resolvePropertySchema fuel rt sch dt imp res = some (out, r')) :
    out.type? ≠ some "array" :=
  resolvePropGo_not_array (fun _ _ _ _ _ hg => generateSchemaF_shape hg) h

/-! ### Termination: a concrete sufficient fuel bound

Every recursive descent adds a fresh name to the visited set, and descent
continues past a name only when that name is a complex type of the current
schema (the main schema or one of the imported schemas).  The number of
distinct complex-type names not yet visited therefore bounds the recursion
depth. -/

/-- The complex-type names declared by one schema document. -/
def schemaTypeNames (xsdSchema : XsdSchema) : List String :=
  (extractComplexTypes xsdSchema).map (fun ct => ct.name)

/-- All complex-type names reachable during one generation run: those of
the given schema and of every imported schema. -/
def universeNames (xsdSchema : XsdSchema) (importedSchemas : List (String × XsdSchema)) :
    List String :=
  schemaTypeNames xsdSchema ++ (importedSchemas.map (fun ps => schemaTypeNames ps.2)).flatten

/-- How many names of `u` the visited set has not yet reached. -/
def remainingCount (u : List String) (resolvedTypes : List String) : Nat :=
  (u.toFinset.filter (fun n => n ∉ resolvedTypes)).card

theorem remainingCount_le_of_subset {u res res' : List String} (h : res ⊆ res') :
    remainingCount u res' ≤ remainingCount u res := by
  apply Finset.card_le_card
  intro x hx
  simp only [Finset.mem_filter] at hx ⊢
  exact ⟨hx.1, fun hmem => hx.2 (h hmem)⟩

theorem remainingCount_lt {u res : List String} {tn : String}
    (htn : tn ∈ u) (hres : tn ∉ res) :
    remainingCount u (tn :: res) < remainingCount u res := by
  have hmem : tn ∈ u.toFinset.filter (fun n => n ∉ res) := by
    simp only [Finset.mem_filter, List.mem_toFinset]
    exact ⟨htn, hres⟩
  have hsub : u.toFinset.filter (fun n => n ∉ tn :: res) ⊆
      (u.toFinset.filter (fun n => n ∉ res)).erase tn := by
    intro x hx
    simp only [Finset.mem_filter, List.mem_cons, not_or, Finset.mem_erase] at hx ⊢
    exact ⟨hx.2.1, hx.1, hx.2.2⟩
  calc remainingCount u (tn :: res)
      ≤ ((u.toFinset.filter (fun n => n ∉ res)).erase tn).card := Finset.card_le_card hsub
    _ < remainingCount u res := Finset.card_erase_lt_of_mem hmem

theorem remainingCount_le_card (u res : List String) :
    remainingCount u res ≤ u.toFinset.card :=
  Finset.card_le_card (Finset.filter_subset _ _)

/-- The recursive entry point succeeds on every call the body can make:
for any schema that is the current one or an imported one and any larger
visited set. -/
def GenCallOk (gen : GenFun) (xsdSchema : XsdSchema)
    (importedSchemas : List (String × XsdSchema)) (res : List String) : Prop :=
  ∀ sch' tn' res', res ⊆ res' →
    (sch' = xsdSchema ∨ ∃ p, (p, sch') ∈ importedSchemas) →
    (resolveReferencedSchemaGo gen sch' tn' res').isSome

theorem resolveUnprefixedGo_isSome {gen : GenFun} {sch imp res} (dt : OpenApiType)
    (hok : GenCallOk gen sch imp res) (tn : String) {res' : List String}
    (hsub : res ⊆ res') : (resolveUnprefixedGo gen tn sch dt res').isSome := by
  unfold resolveUnprefixedGo
  split
  · split
    · simp
    · exact hok sch tn res' hsub (Or.inl rfl)
  · simp

theorem resolvePropGo_isSome {gen : GenFun} {sch imp res} (dt : OpenApiType)
    (hok : GenCallOk gen sch imp res) (rt : ResolvedType) {res' : List String}
    (hsub : res ⊆ res') : (resolvePropertySchemaGo gen rt sch dt imp res').isSome := by
  unfold resolvePropertySchemaGo
  split
  · split
    · split
      · rename_i imported hget
        exact hok imported rt.typeName res' hsub (Or.inr ⟨_, jsObjGet_mem hget⟩)
      · simp
    · exact resolveUnprefixedGo_isSome dt hok rt.typeName hsub
  · exact resolveUnprefixedGo_isSome dt hok rt.typeName hsub

theorem addXsdGo_isSome {gen : GenFun} {sch imp res} (dt : OpenApiType)
    (hok : GenCallOk gen sch imp res) (e : XsdElement) (acc : GenSchema)
    {res' : List String} (hsub : res ⊆ res') :
    (addXsdElementToSchemaGo gen e acc sch dt imp res').isSome := by
  unfold addXsdElementToSchemaGo
  have h := resolvePropGo_isSome dt hok (resolveType dt e.type?) hsub
  obtain ⟨⟨propertySchema, resolved1⟩, hps⟩ := Option.isSome_iff_exists.mp h
  simp only [hps]
  simp

theorem addElementsGo_isSome {gen : GenFun} {sch imp res} (dt : OpenApiType)
    (hg : GenMono gen) (hok : GenCallOk gen sch imp res) :
    ∀ (elems : List XsdElement) (acc : GenSchema) (res' : List String), res ⊆ res' →
      (addElementsGo gen sch dt imp elems acc res').isSome := by
  intro elems
  induction elems with
  | nil =>
    intro acc res' _
    simp [addElementsGo]
  | cons e rest ih =>
    intro acc res' hsub
    unfold addElementsGo
    have h := addXsdGo_isSome dt hok e acc hsub
    obtain ⟨⟨acc', resolved'⟩, hx⟩ := Option.isSome_iff_exists.mp h
    simp only [hx]
    exact ih acc' resolved' (hsub.trans (addXsdGo_mono hg hx))

theorem buildChoiceGo_isSome {gen : GenFun} {sch imp res} (dt : OpenApiType)
    (hg : GenMono gen) (hok : GenCallOk gen sch imp res) :
    ∀ (elems : List XsdElement) (res' : List String), res ⊆ res' →
      (buildChoiceSchemasGo gen sch dt imp elems res').isSome := by
  intro elems
  induction elems with
  | nil =>
    intro res' _
    simp [buildChoiceSchemasGo]
  | cons e rest ih =>
    intro res' hsub
    unfold buildChoiceSchemasGo
    have h := addXsdGo_isSome dt hok e emptyObjectSchema hsub
    obtain ⟨⟨branch, resolved1⟩, hx⟩ := Option.isSome_iff_exists.mp h
    simp only [hx]
    have h2 := ih resolved1 (hsub.trans (addXsdGo_mono hg hx))
    obtain ⟨⟨branches, resolved2⟩, hy⟩ := Option.isSome_iff_exists.mp h2
    simp only [hy]
    simp

theorem find_eq_none_of_not_mem {sch : XsdSchema} {tn : String}
    (h : tn ∉ schemaTypeNames sch) :
    (extractComplexTypes sch).find? (fun ct => ct.name == tn) = none := by
  rw [List.find?_eq_none]
  intro ct hct
  simp only [beq_iff_eq]
  intro heq
  exact h (by simpa [schemaTypeNames, heq] using List.mem_map_of_mem (fun c => c.name) hct)

theorem generateSchemaF_total (dt : OpenApiType) (imp : List (String × XsdSchema))
    (u : List String)
    (hU : ∀ p s, (p, s) ∈ imp → ∀ n ∈ schemaTypeNames s, n ∈ u) :
    ∀ fuel (sch : XsdSchema) (tn : String) (res : List String),
      (∀ n ∈ schemaTypeNames sch, n ∈ u) →
      remainingCount u res + 2 ≤ fuel →
      (generateSchemaF fuel dt imp sch tn res).isSome := by
  intro fuel
  induction fuel with
  | zero =>
    intro sch tn res _ hb
    omega
  | succ fuel ih =>
    intro sch tn res hsch hb
    simp only [generateSchemaF]
    split
    · simp
    · rename_i complexType hfind
      split
      · simp
      · have hg : GenMono (generateSchemaF fuel dt imp) := generateSchemaF_mono fuel dt imp
        have hok : GenCallOk (generateSchemaF fuel dt imp) sch imp res := by
          intro sch' tn' res' hsub hsch'
          have hsch'u : ∀ n ∈ schemaTypeNames sch', n ∈ u := by
            rcases hsch' with rfl | ⟨p, hp⟩
            · exact hsch
            · exact hU p sch' hp
          unfold resolveReferencedSchemaGo
          split
          · simp
          · rename_i hnot
            by_cases htn' : tn' ∈ u
            · apply ih sch' tn' (tn' :: res') hsch'u
              have h1 : remainingCount u (tn' :: res') < remainingCount u res' :=
                remainingCount_lt htn' hnot
              have h2 : remainingCount u res' ≤ remainingCount u res :=
                remainingCount_le_of_subset hsub
              omega
            · obtain ⟨fuel2, rfl⟩ : ∃ f2, fuel = f2 + 1 := ⟨fuel - 1, by omega⟩
              simp only [generateSchemaF]
              rw [find_eq_none_of_not_mem (fun hmem => htn' (hsch'u tn' hmem))]
              simp
        have hadd := addElementsGo_isSome dt hg hok (complexTypeSequenceElements complexType)
          emptyObjectSchema res (List.Subset.refl res)
        obtain ⟨⟨sequenceSchema, resolved1⟩, hx⟩ := Option.isSome_iff_exists.mp hadd
        simp only [hx]
        split
        · simp
        · have hbc := buildChoiceGo_isSome dt hg hok (complexTypeChoiceElements complexType)
            resolved1 (addElementsGo_mono hg hx)
          obtain ⟨⟨choiceSchemas, resolved2⟩, hy⟩ := Option.isSome_iff_exists.mp hbc
          simp only [hy]
          simp

/-! ### The `required` list of a sequence-built object schema -/

/-- The condition under which `addXsdElementToSchema` pushes an element's
name onto `required`: effective minOccurs 1 (attribute absent, JS-falsy, or
literal `"1"`) and the element not wrapped as an array (which happens
exactly for `maxOccurs="unbounded"`, since a resolved property schema is
never itself a top-level array). -/
def requiredCondB (e : XsdElement) : Bool :=
  (jsStrOrNull e.minOccurs? == (none : Option String) || jsStrOrNull e.minOccurs? == some "1")
    && !(e.maxOccurs? == some "unbounded")

theorem required_updateRequired (acc property : GenSchema) (n : String) (m : Option String)
    (hprop : property.type? ≠ some "array") :
    (updateRequired acc property n m).required?.getD [] =
      acc.required?.getD [] ++
        (if (jsStrOrNull m == (none : Option String) || jsStrOrNull m == some "1") = true
         then [n] else []) := by
  have hbne : (property.type? != some "array") = true := by simpa using hprop
  simp only [updateRequired, hbne, if_true]
  split
  · rw [required_setRequired, required_setRequired]
    simp
  · simp

theorem required_updateRequired_array (acc property : GenSchema) (n : String) (m : Option String)
    (hprop : property.type? = some "array") :
    (updateRequired acc property n m).required?.getD [] = acc.required?.getD [] := by
  have hbne : (property.type? != some "array") = false := by simp [hprop]
  simp only [updateRequired, hbne, Bool.false_eq_true, if_false]
  split
  · rw [required_setRequired]
    simp
  · rfl

theorem addXsdGo_required {gen : GenFun} {dt : OpenApiType}
    (hshape : ∀ sch tn res out r', gen sch tn res = some (out, r') →
      out.type? = some dt.key ∨ out.type? = some "object" ∨ out.type? = none)
    {e : XsdElement} {acc sch imp res out r'}
    (h : addXsdElementToSchemaGo gen e acc sch dt imp res = some (out, r')) :
    out.required?.getD [] =
      acc.required?.getD [] ++ (if requiredCondB e then [e.name] else []) := by
  unfold addXsdElementToSchemaGo at h
  split at h
  · exact absurd h (by simp)
  · rename_i propertySchema resolved1 heq
    have hps : propertySchema.type? ≠ some "array" :=
      resolvePropGo_not_array hshape heq
    simp only [Option.some.injEq, Prod.mk.injEq] at h
    obtain ⟨hout, hres⟩ := h
    rw [← hout, required_setProperties]
    by_cases hunb : (e.maxOccurs? == some "unbounded") = true
    · rw [if_pos hunb]
      rw [required_updateRequired_array _ _ _ _ (arraySchemaOf_type propertySchema)]
      simp [requiredCondB, hunb]
    · rw [if_neg hunb]
      rw [required_updateRequired _ _ _ _ hps]
      simp only [Bool.not_eq_true] at hunb
      simp [requiredCondB, hunb]

theorem addElementsGo_required {gen : GenFun} {dt : OpenApiType}
    (hshape : ∀ sch tn res out r', gen sch tn res = some (out, r') →
      out.type? = some dt.key ∨ out.type? = some "object" ∨ out.type? = none) :
    ∀ {elems : List XsdElement} {sch imp acc res out r'},
      addElementsGo gen sch dt imp elems acc res = some (out, r') →
      out.required?.getD [] =
        acc.required?.getD [] ++ (elems.filter requiredCondB).map (fun e => e.name) := by
  intro elems
  induction elems with
  | nil =>
    intro sch imp acc res out r' h
    unfold addElementsGo at h
    cases h
    simp
  | cons e rest ih =>
    intro sch imp acc res out r' h
    unfold addElementsGo at h
    split at h
    · exact absurd h (by simp)
    · rename_i acc' resolved' heq
      rw [ih h, addXsdGo_required hshape heq]
      by_cases hc : requiredCondB e = true
      · simp [hc, List.filter_cons, List.append_assoc]
      · simp only [Bool.not_eq_true] at hc
        simp [hc, List.filter_cons]

/-! ### Choice branches: single-property object schemas -/

theorem required_updateRequired_emptyAcc (property : GenSchema) (n : String)
    (m : Option String) :
    (updateRequired emptyObjectSchema property n m).required? =
      (if (jsStrOrNull m == (none : Option String) || jsStrOrNull m == some "1") = true
       then some (if (property.type? != some "array") = true then [n] else []) else none) := by
  simp only [updateRequired]
  split
  · split
    · rw [required_setRequired, required_setRequired]
      simp [emptyObjectSchema, GenSchema.required?, required_setRequired]
    · rw [required_setRequired]
      simp [emptyObjectSchema, GenSchema.required?]
  · rfl

/-- What one branch of a generated choice combinator looks like, relative
to its source element: an object schema with exactly the one property, the
property name required exactly when the element's effective minOccurs is 1
and the element is not array-wrapped. -/
def choiceBranchMatches (e : XsdElement) (b : GenSchema) : Prop :=
  b.type? = some "object" ∧
  (∃ prop, b.properties? = some [(e.name, prop)]) ∧
  b.required? =
    (if (jsStrOrNull e.minOccurs? == (none : Option String)
          || jsStrOrNull e.minOccurs? == some "1") = true
     then some (if (e.maxOccurs? == some "unbounded") = true then [] else [e.name])
     else none)

theorem addXsdGo_choice_branch {gen : GenFun} {dt : OpenApiType}
    (hshape : ∀ sch tn res out r', gen sch tn res = some (out, r') →
      out.type? = some dt.key ∨ out.type? = some "object" ∨ out.type? = none)
    {e : XsdElement} {sch imp res out r'}
    (h : addXsdElementToSchemaGo gen e emptyObjectSchema sch dt imp res = some (out, r')) :
    choiceBranchMatches e out := by
  unfold addXsdElementToSchemaGo at h
  split at h
  · exact absurd h (by simp)
  · rename_i propertySchema resolved1 heq
    have hps : propertySchema.type? ≠ some "array" :=
      resolvePropGo_not_array hshape heq
    simp only [Option.some.injEq, Prod.mk.injEq] at h
    obtain ⟨hout, hres⟩ := h
    subst hout
    refine ⟨?_, ?_, ?_⟩
    · rw [type_setProperties, updateRequired_type, emptyObjectSchema_type]
    · refine ⟨attachFacets e (if (e.maxOccurs? == some "unbounded") = true
          then arraySchemaOf propertySchema else propertySchema), ?_⟩
      rw [properties_setProperties, updateRequired_properties]
      simp [emptyObjectSchema, jsObjSet]
    · rw [required_setProperties, required_updateRequired_emptyAcc]
      by_cases hunb : (e.maxOccurs? == some "unbounded") = true
      · have : ((if (e.maxOccurs? == some "unbounded") = true
            then arraySchemaOf propertySchema else propertySchema).type?
              != some "array") = false := by
          rw [if_pos hunb, arraySchemaOf_type]
          simp
        rw [this, hunb]
        simp
      · have hbneq : (e.maxOccurs? == some "unbounded") = false := by
          simpa using hunb
        have : ((if (e.maxOccurs? == some "unbounded") = true
            then arraySchemaOf propertySchema else propertySchema).type?
              != some "array") = true := by
          rw [if_neg hunb]
          simpa using hps
        rw [this, hbneq]
        simp

theorem buildChoiceGo_branches {gen : GenFun} {dt : OpenApiType}
    (hshape : ∀ sch tn res out r', gen sch tn res = some (out, r') →
      out.type? = some dt.key ∨ out.type? = some "object" ∨ out.type? = none) :
    ∀ {elems : List XsdElement} {sch imp res bs r'},
      buildChoiceSchemasGo gen sch dt imp elems res = some (bs, r') →
      List.Forall₂ choiceBranchMatches elems bs := by
  intro elems
  induction elems with
  | nil =>
    intro sch imp res bs r' h
    unfold buildChoiceSchemasGo at h
    cases h
    exact List.Forall₂.nil
  | cons e rest ih =>
    intro sch imp res bs r' h
    unfold buildChoiceSchemasGo at h
    split at h
    · exact absurd h (by simp)
    · rename_i branch resolved1 heq
      split at h
      · exact absurd h (by simp)
      · rename_i branches resolved2 heq2
        simp only [Option.some.injEq, Prod.mk.injEq] at h
        obtain ⟨hbs, hres⟩ := h
        rw [← hbs]
        exact List.Forall₂.cons (addXsdGo_choice_branch hshape heq) (ih heq2)

/-! ### Characterisation of `generateSchema` on a sequence content model -/

theorem generateSchema_sequence_required {fuel : Nat} {xsdSchema : XsdSchema}
    {typeName : String} {resolvedTypes : List String} {defaultType : OpenApiType}
    {importedSchemas : List (String × XsdSchema)} {complexType : XsdComplexType}
    {out : GenSchema} {r' : List String}
    (hfind : (extractComplexTypes xsdSchema).find? (fun ct => ct.name == typeName)
      = some complexType)
    (hchoice : complexTypeChoiceElements complexType = [])
    (hne : complexTypeSequenceElements complexType ≠ [])
    (hrun : generateSchema fuel xsdSchema typeName resolvedTypes defaultType importedSchemas
      = some (out, r')) :
    out.required?.getD [] =
      ((complexTypeSequenceElements complexType).filter requiredCondB).map (fun e => e.name) := by
  cases fuel with
  | zero => simp [generateSchema, generateSchemaF] at hrun
  | succ fuel =>
    unfold generateSchema at hrun
    simp only [generateSchemaF] at hrun
    simp only [hfind] at hrun
    have hemp : (complexTypeSequenceElements complexType).isEmpty = false := by
      simpa [List.isEmpty_iff] using hne
    simp only [hchoice, hemp, List.isEmpty_nil, Bool.and_true, Bool.false_eq_true,
      if_false, List.isEmpty_cons] at hrun
    split at hrun
    · exact absurd hrun (by simp)
    · rename_i sequenceSchema resolved1 heq
      rw [if_pos trivial] at hrun
      simp only [Option.some.injEq, Prod.mk.injEq] at hrun
      obtain ⟨hout, hres⟩ := hrun
      rw [← hout]
      rw [addElementsGo_required (fun _ _ _ _ _ hg => generateSchemaF_shape hg) heq]
      simp [emptyObjectSchema, GenSchema.required?]

theorem combinatorSchema_anyOf (u : Bool) (bs : List GenSchema) :
    (combinatorSchema u bs).anyOf? = if u then some bs else none := by
  cases u <;> rfl

theorem combinatorSchema_oneOf (u : Bool) (bs : List GenSchema) :
    (combinatorSchema u bs).oneOf? = if u then none else some bs := by
  cases u <;> rfl

/-! ### Claim theorems -/

/-- Claim C1: for every parsed schema document, every imported-schema map,
every target type name and every starting visited set, schema generation
terminates — concretely, the fuel-indexed embedding succeeds whenever the
fuel exceeds the number of distinct complex-type names in play plus one, so
the source's unbounded recursion is in fact bounded — and at an occurrence
of a repeated type `resolveReferencedSchema` returns the empty object
schema without recursing. -/
theorem generateSchema_cycle_termination (xsdSchema : XsdSchema)
    (importedSchemas : List (String × XsdSchema)) (typeName : String)
    (resolvedTypes : List String) (defaultType : OpenApiType) (fuel : Nat)
    (hfuel : (universeNames xsdSchema importedSchemas).toFinset.card + 2 ≤ fuel) :
    (generateSchema fuel xsdSchema typeName resolvedTypes defaultType importedSchemas).isSome ∧
    (typeName ∈ resolvedTypes →
      resolveReferencedSchema fuel xsdSchema typeName resolvedTypes defaultType importedSchemas
        = some (emptyObjectSchema, resolvedTypes)) := by
  constructor
  · apply generateSchemaF_total defaultType importedSchemas
      (universeNames xsdSchema importedSchemas)
    · intro p s hp n hn
      unfold universeNames
      refine List.mem_append_right _ ?_
      exact List.mem_flatten.mpr ⟨schemaTypeNames s, List.mem_map_of_mem _ hp, hn⟩
    · intro n hn
      exact List.mem_append_left _ hn
    · have := remainingCount_le_card (universeNames xsdSchema importedSchemas) resolvedTypes
      omega
  · intro hmem
    unfold resolveReferencedSchema resolveReferencedSchemaGo
    rw [if_pos hmem]

/-- Claim C7 (amended): during one run, a named type resolves to the empty
object schema exactly when its name is already in the visited set — which
records every type name ever entered during the run and is never popped
(the set only grows), not only the names on the current recursion chain.
A name not yet in the set is recursed into with the name added. -/
theorem resolveReferencedSchema_visited (fuel : Nat) (xsdSchema : XsdSchema)
    (typeName : String) (resolvedTypes : List String) (defaultType : OpenApiType)
    (importedSchemas : List (String × XsdSchema)) :
    (typeName ∈ resolvedTypes →
      resolveReferencedSchema fuel xsdSchema typeName resolvedTypes defaultType importedSchemas
        = some (emptyObjectSchema, resolvedTypes)) ∧
    (typeName ∉ resolvedTypes →
      resolveReferencedSchema fuel xsdSchema typeName resolvedTypes defaultType importedSchemas
        = generateSchema fuel xsdSchema typeName (typeName :: resolvedTypes) defaultType
            importedSchemas) ∧
    (∀ out r',
      generateSchema fuel xsdSchema typeName resolvedTypes defaultType importedSchemas
        = some (out, r') → resolvedTypes ⊆ r') := by
  refine ⟨?_, ?_, ?_⟩
  · intro hmem
    unfold resolveReferencedSchema resolveReferencedSchemaGo
    rw [if_pos hmem]
  · intro hmem
    unfold resolveReferencedSchema resolveReferencedSchemaGo generateSchema
    rw [if_neg hmem]
  · intro out r' h
    exact generateSchemaF_mono fuel defaultType importedSchemas _ _ _ _ _ h

/-- Claim C3 (amended): for a complex type whose content model is a
non-empty plain sequence, the generated object's `required` list is
exactly, and in source element order, the names of the elements whose
`minOccurs` attribute is absent, empty (JS-falsy), or `"1"`, and whose
`maxOccurs` is not `"unbounded"` (equivalently, whose generated property is
not an array node). -/
theorem generateSchema_required_list (fuel : Nat) (xsdSchema : XsdSchema)
    (typeName : String) (resolvedTypes : List String) (defaultType : OpenApiType)
    (importedSchemas : List (String × XsdSchema)) (complexType : XsdComplexType)
    (out : GenSchema) (r' : List String)
    (hfind : (extractComplexTypes xsdSchema).find? (fun ct => ct.name == typeName)
      = some complexType)
    (hchoice : complexTypeChoiceElements complexType = [])
    (hne : complexTypeSequenceElements complexType ≠ [])
    (hrun : generateSchema fuel xsdSchema typeName resolvedTypes defaultType importedSchemas
      = some (out, r')) :
    out.required?.getD [] =
      ((complexTypeSequenceElements complexType).filter requiredCondB).map (fun e => e.name) :=
  generateSchema_sequence_required hfind hchoice hne hrun

/-- Claim C9 (amended): required-list entries are pushed once per
qualifying source element, so a property name occurs in `required` at most
once provided the sequence's element names are pairwise distinct; with
duplicated element names each qualifying occurrence is pushed (the single
`properties` entry notwithstanding). -/
theorem generateSchema_required_nodup (fuel : Nat) (xsdSchema : XsdSchema)
    (typeName : String) (resolvedTypes : List String) (defaultType : OpenApiType)
    (importedSchemas : List (String × XsdSchema)) (complexType : XsdComplexType)
    (out : GenSchema) (r' : List String)
    (hfind : (extractComplexTypes xsdSchema).find? (fun ct => ct.name == typeName)
      = some complexType)
    (hchoice : complexTypeChoiceElements complexType = [])
    (hne : complexTypeSequenceElements complexType ≠ [])
    (hnodup : ((complexTypeSequenceElements complexType).map (fun e => e.name)).Nodup)
    (hrun : generateSchema fuel xsdSchema typeName resolvedTypes defaultType importedSchemas
      = some (out, r')) :
    (out.required?.getD []).Nodup := by
  rw [generateSchema_sequence_required hfind hchoice hne hrun]
  exact hnodup.sublist (List.Sublist.map _ (List.filter_sublist _))

/-- Claim C5 (amended): a complex type whose content model is a bare,
non-empty choice generates an `anyOf` combinator when the choice's own
`maxOccurs` is `"unbounded"` and a `oneOf` combinator otherwise; each
branch is an object schema holding exactly the one property built from the
corresponding choice element, and that property is marked required in its
branch exactly when the element's effective minOccurs is 1 (attribute
absent, empty, or `"1"`) and the element is not array-wrapped. -/
theorem generateSchema_choice_combinator (fuel : Nat) (xsdSchema : XsdSchema)
    (typeName : String) (resolvedTypes : List String) (defaultType : OpenApiType)
    (importedSchemas : List (String × XsdSchema)) (complexType : XsdComplexType)
    (choice : XsdChoice) (out : GenSchema) (r' : List String)
    (hfind : (extractComplexTypes xsdSchema).find? (fun ct => ct.name == typeName)
      = some complexType)
    (hseq : complexTypeSequenceElements complexType = [])
    (hch : complexType.choices.head? = some choice)
    (hne : getChoiceElements choice ≠ [])
    (hrun : generateSchema fuel xsdSchema typeName resolvedTypes defaultType importedSchemas
      = some (out, r')) :
    ((choice.maxOccurs? == some "unbounded") = true →
      out.oneOf? = none ∧ out.anyOf?.isSome) ∧
    ((choice.maxOccurs? == some "unbounded") = false →
      out.anyOf? = none ∧ out.oneOf?.isSome) ∧
    (∀ bs, out.anyOf? = some bs ∨ out.oneOf? = some bs →
      List.Forall₂ choiceBranchMatches (getChoiceElements choice) bs) := by
  cases fuel with
  | zero => simp [generateSchema, generateSchemaF] at hrun
  | succ fuel =>
    unfold generateSchema at hrun
    simp only [generateSchemaF] at hrun
    simp only [hfind] at hrun
    have hce : complexTypeChoiceElements complexType = getChoiceElements choice := by
      unfold complexTypeChoiceElements
      rw [hch]
    have hemp : (getChoiceElements choice).isEmpty = false := by
      simpa [List.isEmpty_iff] using hne
    simp only [hce, hseq, hemp, List.isEmpty_nil, Bool.true_and, Bool.false_eq_true,
      if_false, addElementsGo] at hrun
    split at hrun
    · exact absurd hrun (by simp)
    · rename_i choiceSchemas resolved2 heq
      simp only [hch, Option.some_bind, Option.some.injEq, Prod.mk.injEq] at hrun
      obtain ⟨hout, hres⟩ := hrun
      rw [← hout]
      refine ⟨?_, ?_, ?_⟩
      · intro hu
        rw [combinatorSchema_oneOf, combinatorSchema_anyOf, hu]
        simp
      · intro hu
        rw [combinatorSchema_oneOf, combinatorSchema_anyOf, hu]
        simp
      · intro bs hbs
        have hbs' : bs = choiceSchemas := by
          rcases hbs with hb | hb
          · rw [combinatorSchema_anyOf] at hb
            split at hb
            · exact (Option.some.inj hb).symm
            · exact absurd hb (by simp)
          · rw [combinatorSchema_oneOf] at hb
            split at hb
            · exact absurd hb (by simp)
            · exact (Option.some.inj hb).symm
        rw [hbs']
        exact buildChoiceGo_branches (fun _ _ _ _ _ hg => generateSchemaF_shape hg) heq

/-- Claim C2 (amended): the generated property for an element is wrapped as
`{type:"array", items: <resolved schema>}` exactly when its `maxOccurs`
attribute is literally `"unbounded"`; any other value — absent, `"1"`, or a
numeric bound such as `"5"` — stores the element's own resolved schema
unwrapped (with facets attached). -/
theorem addXsdElementToSchema_array_wrap (fuel : Nat) (element : XsdElement)
    (openApiSchema : GenSchema) (xsdSchema : XsdSchema) (defaultType : OpenApiType)
    (importedSchemas : List (String × XsdSchema)) (resolvedTypes : List String)
    (inner : GenSchema) (resolved1 : List String)
    (h : resolvePropertySchema fuel (resolveType defaultType element.type?) xsdSchema
        defaultType importedSchemas resolvedTypes = some (inner, resolved1)) :
    ∃ acc', addXsdElementToSchema fuel element openApiSchema xsdSchema defaultType
        importedSchemas resolvedTypes = some (acc', resolved1) ∧
      jsObjGet (acc'.properties?.getD []) element.name =
        some (attachFacets element
          (if (element.maxOccurs? == some "unbounded") = true
           then arraySchemaOf inner else inner)) := by
  unfold resolvePropertySchema at h
  unfold addXsdElementToSchema addXsdElementToSchemaGo
  rw [h]
  refine ⟨_, rfl, ?_⟩
  rw [properties_setProperties]
  simp only [Option.getD_some]
  exact jsObjGet_set_self _ _ _

/-- Claim C6 (amended): an element with no type attribute at all always
generates the property `{type:"string"}` — `resolveType` hardcodes the
local name `"string"`, which the primitive map sends to `"string"` — for
every configured `defaultType`; the configured default applies to unknown
type names, not to missing type attributes.  The element is also marked
required (its minOccurs is absent) and the visited set is unchanged. -/
theorem typeless_element_yields_string (fuel : Nat) (name : String)
    (openApiSchema : GenSchema) (xsdSchema : XsdSchema) (defaultType : OpenApiType)
    (importedSchemas : List (String × XsdSchema)) (resolvedTypes : List String) :
    addXsdElementToSchema fuel ⟨name, none, none, none, none, none, none⟩ openApiSchema
        xsdSchema defaultType importedSchemas resolvedTypes =
      some
        ((openApiSchema.setRequired (some (openApiSchema.required?.getD [] ++ [name]))).setProperties
          (some (jsObjSet
            ((openApiSchema.setRequired
              (some (openApiSchema.required?.getD [] ++ [name]))).properties?.getD [])
            name (typeOnly "string"))),
         resolvedTypes) := by
  cases openApiSchema
  rfl

/-- Claim C8: import isolation.  A type reference that resolves to a
foreign namespace prefix declared in the imported-schema map is looked up
in that imported schema (via `resolveReferencedSchema` on the imported
schema root); a bare (unprefixed) reference to a name that is not a complex
type of the main schema and not a recognised primitive falls through to
`{type: defaultType}` — regardless of what any imported schema declares —
with the name merely added to the visited set. -/
theorem import_isolation (fuel : Nat) (xsdSchema : XsdSchema) (defaultType : OpenApiType)
    (importedSchemas : List (String × XsdSchema)) (resolvedTypes : List String)
    (rawType? : Option String) (p tName : String) (imported : XsdSchema) :
    ((resolveType defaultType rawType? = ⟨some p, tName⟩) → p ≠ "" →
      jsObjGet importedSchemas p = some imported →
      resolvePropertySchema fuel (resolveType defaultType rawType?) xsdSchema defaultType
          importedSchemas resolvedTypes =
        resolveReferencedSchema fuel imported tName resolvedTypes defaultType
          importedSchemas) ∧
    ((resolveType defaultType rawType? = ⟨none, tName⟩) → tName ≠ "" →
      tName ∉ schemaTypeNames xsdSchema →
      jsObjGet openApiTypeMap (jsReplaceFirst (jsReplaceFirst tName "xsd:" "") "xs:" "") = none →
      tName ∉ resolvedTypes → 1 ≤ fuel →
      resolvePropertySchema fuel (resolveType defaultType rawType?) xsdSchema defaultType
          importedSchemas resolvedTypes =
        some (typeOnly defaultType.key, tName :: resolvedTypes)) := by
  constructor
  · intro hres hp hget
    rw [hres]
    unfold resolvePropertySchema resolvePropertySchemaGo resolveReferencedSchema
    dsimp only
    rw [if_pos (by simpa using hp), hget]
  · intro hres htn hnotlocal hmap hmem hfuel
    rw [hres]
    unfold resolvePropertySchema resolvePropertySchemaGo
    dsimp only
    unfold resolveUnprefixedGo
    rw [if_pos (by simpa using htn), hmap]
    unfold resolveReferencedSchemaGo
    rw [if_neg hmem]
    obtain ⟨fuel2, rfl⟩ : ∃ f2, fuel = f2 + 1 := ⟨fuel - 1, by omega⟩
    simp only [generateSchemaF]
    rw [find_eq_none_of_not_mem hnotlocal]

/-- Claim C10: a type reference carrying a truthy namespace prefix that is
not a key of the imported-schemas mapping silently falls back to
`{type: defaultType}`: no failure is possible (the function is total and
returns the fallback), the current schema's complex types are never
consulted (the result is the same for every schema), and the visited set is
untouched. -/
theorem unknownPrefix_fallback (fuel : Nat) (xsdSchema : XsdSchema)
    (defaultType : OpenApiType) (importedSchemas : List (String × XsdSchema))
    (resolvedTypes : List String) (rawType? : Option String) (p tName : String)
    (hres : resolveType defaultType rawType? = ⟨some p, tName⟩) (hp : p ≠ "")
    (hmiss : jsObjGet importedSchemas p = none) :
    resolvePropertySchema fuel (resolveType defaultType rawType?) xsdSchema defaultType
        importedSchemas resolvedTypes =
      some (typeOnly defaultType.key, resolvedTypes) := by
  rw [hres]
  unfold resolvePropertySchema resolvePropertySchemaGo
  dsimp only
  rw [if_pos (by simpa using hp), hmiss]

/-- A schema whose top-level elements are `GetBookRequest`, `GetBookResponse`
and `GetBook` (with arbitrary type attributes), over arbitrary complex
types. -/
def getBookSchema (cts : Option (List XsdComplexType)) (t1 t2 t3 : Option String) : XsdSchema :=
  ⟨cts, some [⟨"GetBookRequest", t1, none, none, none, none, none⟩,
              ⟨"GetBookResponse", t2, none, none, none, none, none⟩,
              ⟨"GetBook", t3, none, none, none, none, none⟩]⟩

/-- Claim C4: with suffixes `"Request"`/`"Response"`, top-level elements
`GetBookRequest` and `GetBookResponse` produce exactly one path `/GetBook`
(or `/<schemaName>/GetBook` when `useSchemaNameInPath` is enabled) whose
single `post` operation carries both a `requestBody` generated from the
request element's type and a `responses["200"]` generated from the response
element's type; the suffix-less `GetBook` element contributes no path. -/
theorem generateOpenApiSpec_pairing (fuel : Nat) (cts : Option (List XsdComplexType))
    (t1 t2 t3 : Option String) (schemaName : String)
    (importedSchemas : List (String × XsdSchema)) (defaultType : OpenApiType) (b : Bool)
    (s1 s2 : GenSchema) (r1 r2 : List String)
    (h1 : generateSchema fuel (getBookSchema cts t1 t2 t3)
        (resolveType defaultType t1).typeName [] defaultType importedSchemas = some (s1, r1))
    (h2 : generateSchema fuel (getBookSchema cts t1 t2 t3)
        (resolveType defaultType t2).typeName [] defaultType importedSchemas = some (s2, r2)) :
    generateOpenApiSpec fuel (getBookSchema cts t1 t2 t3) schemaName importedSchemas
        ⟨some "Request", some "Response", some b, none, none, none, some defaultType, none⟩ =
      some ⟨"3.1.0",
        ⟨schemaName, "OpenAPI 3.1.0 specification generated from XSD schema " ++ schemaName,
         "1.0.0"⟩,
        [((if b then "/" ++ schemaName ++ "/" ++ "GetBook" else "/GetBook"),
          [("post", ⟨"GetBook",
            "POST " ++ (if b then "/" ++ schemaName ++ "/" ++ "GetBook" else "/GetBook"),
            some ⟨true, none, [("application/json", s1)]⟩,
            [("200", ⟨none, some [("application/json", s2)]⟩)]⟩)])]⟩ := by
  have hgroup : groupElements "Request" "Response"
      ((getBookSchema cts t1 t2 t3).elements?.getD [])
      = [("GetBook", ⟨some ⟨"GetBookRequest", t1, none, none, none, none, none⟩,
                      some ⟨"GetBookResponse", t2, none, none, none, none, none⟩⟩)] := rfl
  unfold generateOpenApiSpec
  simp only [Option.getD_some, Option.getD_none, jsStrOrD]
  rw [hgroup]
  unfold buildPaths
  dsimp only
  rw [if_neg (by simp)]
  unfold buildRequestBody
  dsimp only
  rw [h1]
  unfold buildResponse200
  dsimp only
  rw [h2]
  unfold buildErrorResponses
  dsimp only
  rfl

/-! ### Concrete fixtures, counterexamples and witnesses -/

/-- A schema with one self-referential complex type (`A` contains an
element of type `tns:A`). -/
def cycSchema : XsdSchema :=
  ⟨some [⟨"A", [⟨[⟨"x", some "tns:A", none, none, none, none, none⟩]⟩], []⟩], none⟩

/-- Two sibling elements referencing the same complex type `B`. -/
def sibSchema : XsdSchema :=
  ⟨some [⟨"A", [⟨[⟨"x", some "tns:B", none, none, none, none, none⟩,
                  ⟨"y", some "tns:B", none, none, none, none, none⟩]⟩], []⟩,
         ⟨"B", [⟨[⟨"z", some "xsd:string", none, none, none, none, none⟩]⟩], []⟩], none⟩

/-- A sequence with two elements of the same name. -/
def dupSchema : XsdSchema :=
  ⟨some [⟨"T", [⟨[⟨"a", some "xsd:string", none, none, none, none, none⟩,
                  ⟨"a", some "xsd:string", none, none, none, none, none⟩]⟩], []⟩], none⟩

/-- An element whose `minOccurs` attribute is present but empty. -/
def xElemC3 : XsdElement := ⟨"x", some "xsd:string", none, some "", none, none, none⟩

/-- A sequence holding just `xElemC3`. -/
def minEmptySchema : XsdSchema := ⟨some [⟨"T", [⟨[xElemC3]⟩], []⟩], none⟩

def reqElemA : XsdElement := ⟨"a", some "xsd:string", none, none, none, none, none⟩

def reqElemB : XsdElement := ⟨"b", some "xsd:string", none, some "0", none, none, none⟩

def reqElemC : XsdElement := ⟨"c", some "xsd:string", some "unbounded", none, none, none, none⟩

def reqCT : XsdComplexType := ⟨"T", [⟨[reqElemA, reqElemB, reqElemC]⟩], []⟩

/-- A sequence with a required, an optional and an unbounded element. -/
def reqSchema : XsdSchema := ⟨some [reqCT], none⟩

/-- The generated schema for `reqSchema`'s type `T`. -/
def outC3w : GenSchema :=
  GenSchema.mk (some "object")
    (some [("a", typeOnly "string"), ("b", typeOnly "string"),
           ("c", arraySchemaOf (typeOnly "string"))])
    (some ["a"]) none none none none none none

def pElemC5 : XsdElement := ⟨"p", some "xsd:string", none, some "0", none, none, none⟩

def qElemC5 : XsdElement := ⟨"q", some "xsd:string", none, none, none, none, none⟩

def choC5 : XsdChoice := ⟨[], [pElemC5, qElemC5], none⟩

def choCT : XsdComplexType := ⟨"C", [], [choC5]⟩

/-- A complex type whose content model is a bare choice of two elements,
the first with `minOccurs="0"`. -/
def choSchema : XsdSchema := ⟨some [choCT], none⟩

def br1C5 : GenSchema :=
  GenSchema.mk (some "object") (some [("p", typeOnly "string")]) none
    none none none none none none

def br2C5 : GenSchema :=
  GenSchema.mk (some "object") (some [("q", typeOnly "string")]) (some ["q"])
    none none none none none none

/-- Complex types for the `GetBook` pairing example. -/
def ctsC4 : Option (List XsdComplexType) :=
  some [⟨"BReq", [⟨[⟨"bookId", some "xsd:string", none, none, none, none, none⟩]⟩], []⟩,
        ⟨"BRes", [⟨[⟨"title", some "xsd:string", none, none, none, none, none⟩]⟩], []⟩]

def s1C4 : GenSchema :=
  GenSchema.mk (some "object") (some [("bookId", typeOnly "string")]) (some ["bookId"])
    none none none none none none

def s2C4 : GenSchema :=
  GenSchema.mk (some "object") (some [("title", typeOnly "string")]) (some ["title"])
    none none none none none none

/-- An imported schema declaring complex type `Foo`. -/
def impSchemaFix : XsdSchema :=
  ⟨some [⟨"Foo", [⟨[⟨"g", some "xsd:string", none, none, none, none, none⟩]⟩], []⟩], none⟩

/-- A main schema declaring no complex types. -/
def mainSchemaFix : XsdSchema := ⟨some [], none⟩

/-- Witness for C1 at a concrete self-referential schema: generation
succeeds at the computed fuel bound, and the repeated type yields the empty
object schema. -/
theorem generateSchema_cycle_termination_witness :
    (generateSchema 3 cycSchema "A" ["A"] OpenApiType.string []).isSome ∧
    resolveReferencedSchema 3 cycSchema "A" ["A"] OpenApiType.string [] =
      some (emptyObjectSchema, ["A"]) := by
  have h := generateSchema_cycle_termination cycSchema [] "A" ["A"] OpenApiType.string 3
    (by decide)
  exact ⟨h.1, h.2 (by decide)⟩

/-- Counterexample for C7 as stated: in one run over `sibSchema`, the
second sibling reference to `B` yields the empty object schema (zero
properties) even though `B`'s resolution had already completed — resolving
`B` directly yields a one-property object. -/
theorem cycleGuard_sibling_cex :
    (generateSchema 3 sibSchema "A" [] OpenApiType.string []).map
        (fun p => jsObjGet (p.1.properties?.getD []) "y") = some (some emptyObjectSchema) ∧
    (generateSchema 3 sibSchema "A" [] OpenApiType.string []).map
        (fun p => (jsObjGet (p.1.properties?.getD []) "y").map
          (fun q => (q.properties?.getD []).length)) = some (some 0) ∧
    (generateSchema 3 sibSchema "B" [] OpenApiType.string []).map
        (fun p => (p.1.properties?.getD []).length) = some 1 ∧ (0 : Nat) ≠ 1 :=
  ⟨rfl, rfl, rfl, by decide⟩

/-- Witness for C7 (amended) at concrete inputs. -/
theorem resolveReferencedSchema_visited_witness :
    resolveReferencedSchema 3 sibSchema "B" ["B"] OpenApiType.string [] =
      some (emptyObjectSchema, ["B"]) ∧
    resolveReferencedSchema 3 sibSchema "B" [] OpenApiType.string [] =
      generateSchema 3 sibSchema "B" ["B"] OpenApiType.string [] := by
  have h := resolveReferencedSchema_visited 3 sibSchema "B" ["B"] OpenApiType.string []
  have h2 := resolveReferencedSchema_visited 3 sibSchema "B" [] OpenApiType.string []
  exact ⟨h.1 (by decide), h2.2.1 (by simp)⟩

/-- Counterexample for C2 as stated: `maxOccurs="5"` is not wrapped as an
array; the stored property keeps its scalar type. -/
theorem maxOccursNumeric_noArray_cex :
    (addXsdElementToSchema 1 ⟨"x", some "xsd:string", some "5", none, none, none, none⟩
        emptyObjectSchema ⟨none, none⟩ OpenApiType.string [] []).map
      (fun pr => (jsObjGet (pr.1.properties?.getD []) "x").map (fun q => q.type?))
      = some (some (some "string")) ∧ (some "string" : Option String) ≠ some "array" :=
  ⟨rfl, by decide⟩

/-- Witness for C2 (amended) at a concrete unbounded element. -/
theorem addXsdElementToSchema_array_wrap_witness :
    (addXsdElementToSchema 1 ⟨"items", some "xsd:string", some "unbounded", none, none, none, none⟩
        emptyObjectSchema ⟨none, none⟩ OpenApiType.string [] []).map
      (fun pr => jsObjGet (pr.1.properties?.getD []) "items")
      = some (some (arraySchemaOf (typeOnly "string"))) := by
  obtain ⟨acc', heq, hprop⟩ := addXsdElementToSchema_array_wrap 1
    ⟨"items", some "xsd:string", some "unbounded", none, none, none, none⟩ emptyObjectSchema
    ⟨none, none⟩ OpenApiType.string [] [] (typeOnly "string") [] rfl
  rw [heq]
  exact congrArg some (hprop.trans rfl)

/-- Counterexample for C3 as stated: an element whose `minOccurs` attribute
is the empty string — neither absent nor `"1"` — still lands in
`required` (the empty string is JS-falsy). -/
theorem minOccursEmpty_required_cex :
    (generateSchema 2 minEmptySchema "T" [] OpenApiType.string []).map (fun p => p.1.required?)
      = some (some ["x"]) ∧
    xElemC3.minOccurs? = some "" ∧ (some "" : Option String) ≠ none ∧
    (some "" : Option String) ≠ some "1" :=
  ⟨rfl, rfl, by decide, by decide⟩

/-- Witness for C3 (amended) on `reqSchema`. -/
theorem generateSchema_required_list_witness :
    outC3w.required?.getD [] =
      ((complexTypeSequenceElements reqCT).filter requiredCondB).map (fun e => e.name) :=
  generateSchema_required_list 2 reqSchema "T" [] OpenApiType.string [] reqCT outC3w []
    rfl rfl (by decide) rfl

/-- Counterexample for C9 as stated: two like-named qualifying elements
push the shared name twice. -/
theorem duplicate_required_cex :
    (generateSchema 2 dupSchema "T" [] OpenApiType.string []).map (fun p => p.1.required?)
      = some (some ["a", "a"]) ∧ ¬(["a", "a"] : List String).Nodup :=
  ⟨rfl, by decide⟩

/-- Witness for C9 (amended) on `reqSchema` (distinct names). -/
theorem generateSchema_required_nodup_witness :
    (outC3w.required?.getD []).Nodup :=
  generateSchema_required_nodup 2 reqSchema "T" [] OpenApiType.string [] reqCT outC3w []
    rfl rfl (by decide) (by decide) rfl

/-- Counterexample for C5 as stated: the branch built from a choice element
with `minOccurs="0"` carries no `required` list at all, while its sibling
branch does. -/
theorem choiceBranch_notRequired_cex :
    (generateSchema 2 choSchema "C" [] OpenApiType.string []).map
      (fun p => (p.1.oneOf?.getD []).map (fun br => br.required?))
      = some [none, some ["q"]] ∧ pElemC5.minOccurs? = some "0" :=
  ⟨rfl, rfl⟩

/-- Witness for C5 (amended) on `choSchema`. -/
theorem generateSchema_choice_combinator_witness :
    List.Forall₂ choiceBranchMatches (getChoiceElements choC5) [br1C5, br2C5] :=
  (generateSchema_choice_combinator 2 choSchema "C" [] OpenApiType.string [] choCT choC5
    (combinatorSchema false [br1C5, br2C5]) [] rfl rfl rfl (by decide) rfl).2.2
    [br1C5, br2C5] (Or.inr rfl)

/-- Counterexample for C6 as stated: with `defaultType` configured to
`integer`, a typeless element still generates `{type:"string"}`, not
`{type:"integer"}`. -/
theorem typeless_defaultType_cex :
    (addXsdElementToSchema 1 ⟨"f", none, none, none, none, none, none⟩ emptyObjectSchema
        ⟨none, none⟩ OpenApiType.integer [] []).map
      (fun pr => (jsObjGet (pr.1.properties?.getD []) "f").map (fun q => q.type?))
      = some (some (some "string")) ∧ some "string" ≠ some (OpenApiType.integer.key) :=
  ⟨rfl, by decide⟩

/-- Witness for C4 at a fully concrete book-service schema. -/
theorem generateOpenApiSpec_pairing_witness :
    generateOpenApiSpec 5
        (getBookSchema ctsC4 (some "tns:BReq") (some "tns:BRes") (some "tns:BReq")) "books" []
        ⟨some "Request", some "Response", some false, none, none, none,
         some OpenApiType.string, none⟩ =
      some ⟨"3.1.0",
        ⟨"books", "OpenAPI 3.1.0 specification generated from XSD schema books", "1.0.0"⟩,
        [("/GetBook", [("post", ⟨"GetBook", "POST /GetBook",
          some ⟨true, none, [("application/json", s1C4)]⟩,
          [("200", ⟨none, some [("application/json", s2C4)]⟩)]⟩)])]⟩ :=
  generateOpenApiSpec_pairing 5 ctsC4 (some "tns:BReq") (some "tns:BRes") (some "tns:BReq")
    "books" [] OpenApiType.string false s1C4 s2C4 [] [] rfl rfl

/-- Witness for C8: `ext:Foo` resolves through the imported schema, while
the bare `Foo` — absent from the main schema — falls back to the default
type even though the import declares it. -/
theorem import_isolation_witness :
    resolvePropertySchema 3 (resolveType OpenApiType.string (some "ext:Foo")) mainSchemaFix
        OpenApiType.string [("ext", impSchemaFix)] [] =
      resolveReferencedSchema 3 impSchemaFix "Foo" [] OpenApiType.string
        [("ext", impSchemaFix)] ∧
    resolvePropertySchema 3 (resolveType OpenApiType.string (some "Foo")) mainSchemaFix
        OpenApiType.string [("ext", impSchemaFix)] [] =
      some (typeOnly "string", ["Foo"]) := by
  have h1 := import_isolation 3 mainSchemaFix OpenApiType.string [("ext", impSchemaFix)] []
    (some "ext:Foo") "ext" "Foo" impSchemaFix
  have h2 := import_isolation 3 mainSchemaFix OpenApiType.string [("ext", impSchemaFix)] []
    (some "Foo") "ext" "Foo" impSchemaFix
  exact ⟨h1.1 rfl (by decide) rfl,
         h2.2 rfl (by decide) (by decide) rfl (by simp) (by omega)⟩

/-- Witness for C10: the undeclared prefix `other:` falls back to the
default type with the visited set untouched. -/
theorem unknownPrefix_fallback_witness :
    resolvePropertySchema 2 (resolveType OpenApiType.string (some "other:Foo")) mainSchemaFix
        OpenApiType.string [("ext", impSchemaFix)] [] = some (typeOnly "string", []) :=
  unknownPrefix_fallback 2 mainSchemaFix OpenApiType.string [("ext", impSchemaFix)] []
    (some "other:Foo") "other" "Foo" rfl (by decide) rfl
